import Mathlib

/-!
Verification of the CSS parser front end (decoder, preprocessor, tokenizer)
of the repository omalinov/css-parser against its natural-language
specification.  The definitions below are a shallow embedding of the C++
source src/CodePoints.cpp (whose single presented translation unit also
carries the token consumers) and the token model of src/Tokens.h; line
numbers refer to that presentation:

  - code points are modelled as natural numbers;
  - byte buffers and code-point streams are lists of natural numbers;
  - out-parameters become return values;
  - a C++ function returning false (hard failure) becomes an
    Except error value TokErr.fail;
  - an unguarded read past the end of a buffer (undefined behaviour in the
    C++) becomes TokErr.oob;
  - reading the uninitialized token buffer in TokenizeCodePoints (undefined
    behaviour) becomes TokErr.uninit;
  - loops are given an explicit gas parameter so that every definition is
    structurally recursive and computable; top-level entry points pass gas
    length + 1, which dominates the number of iterations because every loop
    advances its position cursor by at least one per step; exhaustion is
    made observable as TokErr.fuelOut and never occurs in the theorems
    below (every concrete evaluation yields an ok or a fail or oob value);
  - bit operations on small values are written arithmetically:
    x << 6 | (b & 0x3F) is x * 64 + b % 64, b & 0x1F is b % 32,
    b & 0xF is b % 16, b & 0x7 is b % 8, and (r << 4) | h with h < 16 is
    r * 16 + h;
  - the 32-bit unsigned accumulation in InterpretAsBase10Number is modelled
    by reducing the accumulated decimal value modulo 2^32, which agrees
    with wrap-around at every step; 64-bit signed arithmetic is modelled by
    unbounded Int (its overflow is undefined behaviour in the source and is
    not exercised by any theorem below); the double arithmetic of
    ConvertStringToNumber is modelled exactly, as an integer fraction (at
    the inputs used by the theorems below every intermediate double value
    is an integer far below 2^53, so the real program computes the same
    value).
-/

namespace CSSParser

/-! Code-point predicates, from CodePoints.cpp lines 195-276. -/

def isNewline (c : Nat) : Bool := c == 0x0A

def isLeadingSurrogate (c : Nat) : Bool := 0xD800 ≤ c && c ≤ 0xDBFF

def isTrailingSurrogate (c : Nat) : Bool := 0xDC00 ≤ c && c ≤ 0xDFFF

def isSurrogate (c : Nat) : Bool := isLeadingSurrogate c || isTrailingSurrogate c

def isWhitespace (c : Nat) : Bool := isNewline c || c == 0x09 || c == 0x20

def isDigit (c : Nat) : Bool := 0x30 ≤ c && c ≤ 0x39

def isHexDigit (c : Nat) : Bool :=
  isDigit c || (0x41 ≤ c && c ≤ 0x46) || (0x61 ≤ c && c ≤ 0x66)

def isUppercaseLetter (c : Nat) : Bool := 0x41 ≤ c && c ≤ 0x5A

def isLowercaseLetter (c : Nat) : Bool := 0x61 ≤ c && c ≤ 0x7A

def isLetter (c : Nat) : Bool := isUppercaseLetter c || isLowercaseLetter c

def isNonASCII (c : Nat) : Bool := 0x80 ≤ c

def isIdentStart (c : Nat) : Bool := isLetter c || isNonASCII c || c == 0x5F

def isIdent (c : Nat) : Bool := isIdentStart c || isDigit c || c == 0x2D

def isNonPrintable (c : Nat) : Bool :=
  (c ≤ 0x08) || c == 0x0B || (0x0E ≤ c && c ≤ 0x1F) || c == 0x7F

/-! Decoder and preprocessor, CodePoints.cpp lines 279-466. -/

inductive Encoding
  | utf8
  | utf16be
  | utf16le
  | count
deriving DecidableEq, Repr

/-- BOMSniff, CodePoints.cpp lines 279-308, at queue position 0.
The guard position + 3 > size becomes length < 3. -/
def bomSniff (bytes : List Nat) : Encoding :=
  if bytes.length < 3 then .count
  else if bytes.getD 0 0 = 0xEF then
    if bytes.getD 1 0 = 0xBB ∧ bytes.getD 2 0 = 0xBF then .utf8 else .count
  else if bytes.getD 0 0 = 0xFE then
    if bytes.getD 1 0 = 0xFF then .utf16be else .count
  else if bytes.getD 0 0 = 0xFF then
    if bytes.getD 1 0 = 0xFE then .utf16le else .count
  else .count

/-- PushCodePoint, CodePoints.cpp lines 312-343: the inlined input
preprocessing.  Returns the emitted code points and the new value of the
isPreviousCarriageReturn flag.  Note that the fall-through branch of the
source leaves the flag unchanged. -/
def pushCodePoint (c : Nat) (prevCR : Bool) : List Nat × Bool :=
  if c = 0x0C then ([0x0A], false)
  else if c = 0x0D then ([0x0A], true)
  else if c = 0x0A then ((if prevCR then [] else [0x0A]), false)
  else if c = 0 then ([0xFFFD], false)
  else ([c], prevCR)

/-- The local state of UTF8Decode, CodePoints.cpp lines 349-354. -/
structure DecSt where
  cp : Nat
  seen : Nat
  needed : Nat
  lo : Nat
  hi : Nat
  prevCR : Bool
deriving Repr

def initDecSt : DecSt := ⟨0, 0, 0, 0x80, 0xBF, false⟩

/-- One execution of the loop body of UTF8Decode for a byte read while
bytesNeeded = 0 and the byte is not NUL (CodePoints.cpp lines 367-409):
classify an ASCII byte, a lead byte, or an invalid byte. -/
def utf8Step0 (b : Nat) (st : DecSt) : List Nat × DecSt :=
  if b ≤ 0x7F then
    (((pushCodePoint b st.prevCR).1), { st with prevCR := (pushCodePoint b st.prevCR).2 })
  else if 0xC2 ≤ b ∧ b ≤ 0xDF then
    ([], { st with needed := 1, cp := b % 32 })
  else if 0xE0 ≤ b ∧ b ≤ 0xEF then
    ([], { st with
           needed := 2
           cp := b % 16
           lo := (if b = 0xE0 then 0xA0 else st.lo)
           hi := (if b = 0xED then 0x9F else st.hi) })
  else if 0xF0 ≤ b ∧ b ≤ 0xF4 then
    ([], { st with
           needed := 3
           cp := b % 8
           lo := (if b = 0xF0 then 0x90 else st.lo)
           hi := (if b = 0xF4 then 0x8F else st.hi) })
  else
    (((pushCodePoint 0xFFFD st.prevCR).1),
      { st with prevCR := (pushCodePoint 0xFFFD st.prevCR).2 })

/-- UTF8Decode, CodePoints.cpp lines 347-438.  The rejection branch of the
source (byte outside the boundary window) resets the state and reprocesses
the same byte without advancing; that second loop iteration necessarily
runs the bytesNeeded = 0 classification (the byte is known nonzero there),
so the two iterations are fused here into one recursive step. -/
def utf8Decode : List Nat → DecSt → List Nat
  | [], st => if st.needed ≠ 0 then (pushCodePoint 0xFFFD st.prevCR).1 else []
  | b :: rest, st =>
    if st.needed = 0 then
      if b = 0 then []
      else (utf8Step0 b st).1 ++ utf8Decode rest (utf8Step0 b st).2
    else if b = 0 then (pushCodePoint 0xFFFD st.prevCR).1
    else if b < st.lo ∨ st.hi < b then
      (pushCodePoint 0xFFFD st.prevCR).1 ++
        (utf8Step0 b { initDecSt with prevCR := (pushCodePoint 0xFFFD st.prevCR).2 }).1 ++
        utf8Decode rest
          (utf8Step0 b { initDecSt with prevCR := (pushCodePoint 0xFFFD st.prevCR).2 }).2
    else
      if st.seen + 1 = st.needed then
        (pushCodePoint (st.cp * 64 + b % 64) st.prevCR).1 ++
          utf8Decode rest { initDecSt with prevCR := (pushCodePoint (st.cp * 64 + b % 64) st.prevCR).2 }
      else
        utf8Decode rest
          { st with
            cp := st.cp * 64 + b % 64
            seen := st.seen + 1
            lo := 0x80
            hi := 0xBF }

/-- CreateCodePointsStream, CodePoints.cpp lines 448-466.  Returns none
exactly when the source returns false (a UTF-16 BOM was sniffed). -/
def createCodePointsStream (bytes : List Nat) : Option (List Nat) :=
  match bomSniff bytes with
  | .utf16be => none
  | .utf16le => none
  | .utf8 => some (utf8Decode (bytes.drop 3) initDecSt)
  | .count => some (utf8Decode bytes initDecSt)

/-! Token data model, Tokens.h lines 32-125. -/

/-- The stored numeric payload of NumberTokenValue: the source overlays an
int64 or a double in a byte array.  The double is modelled exactly as the
fraction num / den, with den the power of ten contributed by a negative
exponent; qval below gives its rational value. -/
inductive NumVal
  | int (v : Int)
  | real (num : Int) (den : Nat)
deriving DecidableEq, Repr

/-- The exact rational value of a stored numeric payload. -/
def NumVal.qval : NumVal → ℚ
  | .int v => (v : ℚ)
  | .real num den => (num : ℚ) / (den : ℚ)

inductive Token
  | ident (v : List Nat)
  | function (v : List Nat)
  | atKeyword (v : List Nat)
  | hash (v : List Nat) (isID : Bool)
  | string (v : List Nat)
  | badString
  | url (v : List Nat)
  | badURL
  | delim (c : Nat)
  | number (v : NumVal) (isInteger : Bool)
  | percentage (v : NumVal) (isInteger : Bool)
  | dimension (v : NumVal) (isInteger : Bool) (unit : List Nat)
  | whitespace
  | cdo
  | cdc
  | colon
  | semiColon
  | comma
  | leftSquare
  | rightSquare
  | leftParen
  | rightParen
  | leftCurly
  | rightCurly
deriving DecidableEq, Repr

/-- Failure modes of the embedded tokenizer.  fail is the source returning
false; oob is an unguarded read past the end of a buffer (undefined
behaviour in the source); uninit is TokenizeCodePoints pushing the
uninitialized token buffer (undefined behaviour); fuelOut marks gas
exhaustion of the embedding and never arises at the gas values used by the
entry points. -/
inductive TokErr
  | fail
  | oob
  | uninit
  | fuelOut
deriving DecidableEq, Repr

/-! Tokenizer helpers, CodePoints.cpp lines 661-1484 of the presented file. -/

/-- AreTwoCodePointsValidEscape, CodePoints.cpp lines 827-838. -/
def areTwoCodePointsValidEscape (s : List Nat) (p : Nat) : Bool :=
  if s.length ≤ p + 1 then false
  else if s.getD p 0 ≠ 0x5C then false
  else !isNewline (s.getD (p + 1) 0)

/-- DoThreeCodePointsStartIndentSequence, CodePoints.cpp lines 841-859 (the
misspelling of Ident is the source function name). -/
def doThreeCodePointsStartIndentSequence (s : List Nat) (p : Nat) : Bool :=
  if s.length ≤ p + 2 then false
  else if s.getD p 0 = 0x2D then
    isIdentStart (s.getD (p + 1) 0) || s.getD (p + 1) 0 == 0x2D ||
      areTwoCodePointsValidEscape s (p + 1)
  else if s.getD p 0 = 0x5C then areTwoCodePointsValidEscape s p
  else isIdentStart (s.getD p 0)

/-- DoThreeCodePointsStartNumber, CodePoints.cpp lines 894-916. -/
def doThreeCodePointsStartNumber (s : List Nat) (p : Nat) : Bool :=
  if s.length ≤ p then false
  else if s.getD p 0 = 0x2B ∨ s.getD p 0 = 0x2D then
    if p + 1 < s.length ∧ isDigit (s.getD (p + 1) 0) then true
    else decide (p + 2 < s.length) && (s.getD (p + 1) 0 == 0x2E)
      && isDigit (s.getD (p + 2) 0)
  else if s.getD p 0 = 0x2E then
    decide (p + 1 < s.length) && isDigit (s.getD (p + 1) 0)
  else isDigit (s.getD p 0)

/-- HexDigitToNumber, CodePoints.cpp lines 708-720; only applied to hex
digits. -/
def hexDigitToNumber (c : Nat) : Nat :=
  if isDigit c then c - 0x30
  else if isLowercaseLetter c then 10 + c - 0x61
  else 10 + c - 0x41

/-- HexSequenceToCodePoint, CodePoints.cpp lines 722-732; the callers only
pass in-bounds ranges of already-consumed hex digits. -/
def hexSequenceToCodePoint (s : List Nat) (start count : Nat) : Nat :=
  (List.range count).foldl
    (fun acc i => acc * 16 + hexDigitToNumber (s.getD (start + i) 0)) 0

/-- The loop of ConsumeEscapedCodePoint reading up to five further hex
digits, CodePoints.cpp lines 746-754.  rem counts down from 5 (the source
counts consumed up from 0).  The read of the candidate digit is not bounds
guarded in the source. -/
def escHexLoop (s : List Nat) : Nat → Nat → Nat → Except TokErr (Nat × Nat)
  | 0, p, consumed => .ok (consumed, p)
  | rem + 1, p, consumed =>
    match s.get? p with
    | none => .error .oob
    | some c =>
      if isHexDigit c then escHexLoop s rem (p + 1) (consumed + 1)
      else .ok (consumed, p)

/-- ConsumeEscapedCodePoint, CodePoints.cpp lines 735-772.  Returns the
decoded code point and the new cursor.  The end-of-input case writes
U+FFFD and returns false in the source, which every caller converts into
a hard failure, hence error fail here.  The trailing whitespace check is
not bounds guarded in the source.  The zero check of the source compares
against CodePointValue::ZERO, which is the digit zero 0x30, not U+0000. -/
def consumeEscapedCodePoint (s : List Nat) (p : Nat) : Except TokErr (Nat × Nat) :=
  if p < s.length then
    let c := s.getD p 0
    if isHexDigit c then
      match escHexLoop s 5 (p + 1) 0 with
      | .error e => .error e
      | .ok (consumed, p2) =>
        match s.get? p2 with
        | none => .error .oob
        | some w =>
          let p3 := if isWhitespace w then p2 + 1 else p2
          let asNumber := hexSequenceToCodePoint s p (consumed + 1)
          if asNumber = 0x30 ∨ isSurrogate asNumber ∨ 0x10FFFF < asNumber then
            .ok (0xFFFD, p3)
          else .ok (asNumber, p3)
    else .ok (c, p + 1)
  else .error .fail

/-- ConsumeStringToken, CodePoints.cpp lines 775-824.  The source writes a
BadString token (newline) or a String token (end of input) into the output
buffer and then returns false; ConsumeToken discards the buffer and fails,
so both paths are error fail here. -/
def consumeStringToken (s : List Nat) :
    Nat → Nat → Nat → List Nat → Except TokErr (Token × Nat)
  | 0, _, _, _ => .error .fuelOut
  | fuel + 1, p, ending, acc =>
    if p < s.length then
      let c := s.getD p 0
      if c = ending then .ok (.string acc, p + 1)
      else if isNewline c then .error .fail
      else if c = 0x5C then
        if p + 1 = s.length then consumeStringToken s fuel (p + 1) ending acc
        else if isNewline (s.getD (p + 1) 0) then
          consumeStringToken s fuel (p + 2) ending acc
        else
          match consumeEscapedCodePoint s (p + 1) with
          | .error e => .error e
          | .ok (ec, p2) => consumeStringToken s fuel p2 ending (acc ++ [ec])
      else consumeStringToken s fuel (p + 1) ending (acc ++ [c])
    else .error .fail

/-- ConsumeIdentSequence, CodePoints.cpp lines 862-891. -/
def consumeIdentSequence (s : List Nat) :
    Nat → Nat → List Nat → Except TokErr (List Nat × Nat)
  | 0, _, _ => .error .fuelOut
  | fuel + 1, p, acc =>
    if p < s.length then
      let c := s.getD p 0
      if isIdent c then consumeIdentSequence s fuel (p + 1) (acc ++ [c])
      else if areTwoCodePointsValidEscape s p then
        match consumeEscapedCodePoint s (p + 1) with
        | .error e => .error e
        | .ok (ec, p2) => consumeIdentSequence s fuel p2 (acc ++ [ec])
      else .ok (acc, p)
    else .ok (acc, p)

/-- The digit-consuming loops of ConsumeNumber (CodePoints.cpp lines
1030-1039, 1047-1050, 1067-1070, 1078-1081): consume digits, appending
them to the representation. -/
def digitRun (s : List Nat) : Nat → Nat → List Nat → List Nat × Nat
  | 0, p, acc => (acc, p)
  | fuel + 1, p, acc =>
    if p < s.length then
      if isDigit (s.getD p 0) then digitRun s fuel (p + 1) (acc ++ [s.getD p 0])
      else (acc, p)
    else (acc, p)

/-- The digit scan of InterpretAsBase10Number, CodePoints.cpp lines 924-928:
the end position of the digit run that starts one past pos (the code point
at pos itself was verified to be a digit by the caller). -/
def digitScanEnd (s : List Nat) : Nat → Nat → Nat
  | 0, p => p
  | fuel + 1, p =>
    if p < s.length then
      if isDigit (s.getD p 0) then digitScanEnd s fuel (p + 1) else p
    else p

/-- InterpretAsBase10Number, CodePoints.cpp lines 921-941.  Returns the value,
the number of digits, and the end position.  The source accumulates in a
32-bit unsigned with a wrapping power-of-ten base, which equals the
decimal value reduced modulo 2^32. -/
def interpretAsBase10Number (str : List Nat) (pos : Nat) : Nat × Nat × Nat :=
  let stop := digitScanEnd str (str.length + 1) (pos + 1)
  let numDigits := stop - pos
  let value :=
    (((str.drop pos).take numDigits).foldl (fun a c => a * 10 + (c - 0x30)) 0)
      % 4294967296
  (value, numDigits, stop)

/-- ConvertStringToNumber, CodePoints.cpp lines 919-1011: parse sign s,
integer part i, fraction f with digit count d, exponent sign t and
exponent e from the textual representation, then either build the int64
s * i * 10^e or the double s * (i + f * 10^d) * 10^(t * e).  Note three
faithfully reproduced quirks of the source: the first two reads are not
bounds guarded (oob on out-of-range); the call parsing the exponent passes
the address of d as its digit-count out-parameter, overwriting the
fraction digit count; and the fractional part is multiplied by the
positive power pow(10, d).  The double expression
s * (i + f * pow(10, d)) * pow(10, t * e) is encoded exactly: its value is
the integer s * (i + f * 10^d) * 10^e over 1 when the exponent sign t is
positive, and s * (i + f * 10^d) over 10^e when t is negative. -/
def convertStringToNumber (str : List Nat) : Except TokErr NumVal :=
  match str.get? 0 with
  | none => .error .oob
  | some c0 =>
    let sg : Int := if c0 = 0x2B then 1 else if c0 = 0x2D then -1 else 1
    let pos1 : Nat := if c0 = 0x2B ∨ c0 = 0x2D then 1 else 0
    match str.get? pos1 with
    | none => .error .oob
    | some c1 =>
      let iv : Nat × Nat :=
        if isDigit c1 then
          ((interpretAsBase10Number str pos1).1, (interpretAsBase10Number str pos1).2.2)
        else (0, pos1)
      let i := iv.1
      let pos2 := iv.2
      let isInt1 : Bool := !(decide (pos2 < str.length) && (str.getD pos2 0 == 0x2E))
      let pos3 := if pos2 < str.length ∧ str.getD pos2 0 = 0x2E then pos2 + 1 else pos2
      let fv : Nat × Nat × Nat :=
        if pos3 < str.length ∧ isDigit (str.getD pos3 0) then
          interpretAsBase10Number str pos3
        else (0, 0, pos3)
      let f := fv.1
      let d1 := fv.2.1
      let pos4 := fv.2.2
      let pos5 :=
        if pos4 < str.length ∧ (str.getD pos4 0 = 0x45 ∨ str.getD pos4 0 = 0x65) then
          pos4 + 1
        else pos4
      let tNeg : Bool :=
        decide (pos5 < str.length) && !(str.getD pos5 0 == 0x2B)
          && (str.getD pos5 0 == 0x2D)
      let isInt2 : Bool := isInt1 && !tNeg
      let pos6 :=
        if pos5 < str.length ∧ (str.getD pos5 0 = 0x2B ∨ str.getD pos5 0 = 0x2D) then
          pos5 + 1
        else pos5
      let ev : Nat × Nat :=
        if pos6 < str.length ∧ isDigit (str.getD pos6 0) then
          ((interpretAsBase10Number str pos6).1, (interpretAsBase10Number str pos6).2.1)
        else (0, d1)
      let e := ev.1
      let d2 := ev.2
      if isInt2 then .ok (.int (sg * (i : Int) * (10 : Int) ^ e))
      else if tNeg then
        .ok (.real (sg * ((i : Int) + (f : Int) * (10 : Int) ^ d2)) (10 ^ e))
      else
        .ok (.real (sg * ((i : Int) + (f : Int) * (10 : Int) ^ d2) * (10 : Int) ^ e) 1)

/-- ConsumeNumber, CodePoints.cpp lines 1014-1088: build the textual
representation (optional sign, digits, optional fraction, optional
exponent), convert it, and return the value, the integer flag and the new
cursor. -/
def consumeNumber (s : List Nat) (p : Nat) : Except TokErr (NumVal × Bool × Nat) :=
  if p = s.length then .error .fail
  else
    let c := s.getD p 0
    let start : List Nat × Nat := if c = 0x2B ∨ c = 0x2D then ([c], p + 1) else ([], p)
    let r1 : List Nat × Nat := digitRun s (s.length + 1) start.2 start.1
    let r2 : List Nat × Nat × Bool :=
      if r1.2 + 1 < s.length ∧ s.getD r1.2 0 = 0x2E ∧ isDigit (s.getD (r1.2 + 1) 0) then
        let r := digitRun s (s.length + 1) (r1.2 + 2)
          (r1.1 ++ [s.getD r1.2 0, s.getD (r1.2 + 1) 0])
        (r.1, r.2, false)
      else (r1.1, r1.2, true)
    let r3 : List Nat × Nat × Bool :=
      if r2.2.1 + 1 < s.length ∧ (s.getD r2.2.1 0 = 0x45 ∨ s.getD r2.2.1 0 = 0x65) then
        if s.getD (r2.2.1 + 1) 0 = 0x2B ∨ s.getD (r2.2.1 + 1) 0 = 0x2D then
          if r2.2.1 + 2 < s.length ∧ isDigit (s.getD (r2.2.1 + 2) 0) then
            let r := digitRun s (s.length + 1) (r2.2.1 + 3)
              (r2.1 ++ [s.getD r2.2.1 0, s.getD (r2.2.1 + 1) 0, s.getD (r2.2.1 + 2) 0])
            (r.1, r.2, false)
          else r2
        else if isDigit (s.getD (r2.2.1 + 1) 0) then
          let r := digitRun s (s.length + 1) (r2.2.1 + 2)
            (r2.1 ++ [s.getD r2.2.1 0, s.getD (r2.2.1 + 1) 0])
          (r.1, r.2, false)
        else r2
      else r2
    match convertStringToNumber r3.1 with
    | .error e => .error e
    | .ok v => .ok (v, r3.2.2, r3.2.1)

/-- ConsumeNumericToken, CodePoints.cpp lines 1091-1117.  The percent-sign
check after the consumed number is not bounds guarded in the source. -/
def consumeNumericToken (s : List Nat) (p : Nat) : Except TokErr (Token × Nat) :=
  match consumeNumber s p with
  | .error e => .error e
  | .ok (v, isInt, p1) =>
    if doThreeCodePointsStartIndentSequence s p1 then
      match consumeIdentSequence s (s.length + 1) p1 [] with
      | .error e => .error e
      | .ok (unit, p2) => .ok (.dimension v isInt unit, p2)
    else
      match s.get? p1 with
      | none => .error .oob
      | some c =>
        if c = 0x25 then .ok (.percentage v isInt, p1 + 1)
        else .ok (.number v isInt, p1)

/-- ConsumeRemnantsOfBadURL, CodePoints.cpp lines 1120-1139.  Stops at a right
parenthesis without consuming it (the source returns from inside the loop
before the increment); on a valid escape it calls ConsumeEscapedCodePoint
at the backslash itself and then additionally advances by one through the
loop increment. -/
def consumeRemnantsOfBadURL (s : List Nat) : Nat → Nat → Except TokErr Nat
  | 0, _ => .error .fuelOut
  | fuel + 1, p =>
    if p < s.length then
      if s.getD p 0 = 0x29 then .ok p
      else if areTwoCodePointsValidEscape s p then
        match consumeEscapedCodePoint s p with
        | .error e => .error e
        | .ok (_, p2) => consumeRemnantsOfBadURL s fuel (p2 + 1)
      else consumeRemnantsOfBadURL s fuel (p + 1)
    else .ok p

/-- The whitespace-skipping loops of ConsumeWhitespace (CodePoints.cpp lines
696-706) and ConsumeURL (lines 1145-1148, 1159-1162). -/
def skipWhitespace (s : List Nat) : Nat → Nat → Nat
  | 0, p => p
  | fuel + 1, p =>
    if p < s.length then
      if isWhitespace (s.getD p 0) then skipWhitespace s fuel (p + 1) else p
    else p

/-- The main loop of ConsumeURL, CodePoints.cpp lines 1149-1216.  Reaching the
end of input (directly or after trailing whitespace) returns false in the
source, a hard failure. -/
def consumeURLLoop (s : List Nat) : Nat → Nat → List Nat → Except TokErr (Token × Nat)
  | 0, _, _ => .error .fuelOut
  | fuel + 1, p, acc =>
    if p < s.length then
      let c := s.getD p 0
      if c = 0x29 then .ok (.url acc, p + 1)
      else if isWhitespace c then
        let p2 := skipWhitespace s (s.length + 1) (p + 1)
        if p2 = s.length then .error .fail
        else if s.getD p2 0 = 0x29 then .ok (.url acc, p2 + 1)
        else
          match consumeRemnantsOfBadURL s (s.length + 1) p2 with
          | .error e => .error e
          | .ok p3 => .ok (.badURL, p3)
      else if c = 0x22 ∨ c = 0x27 ∨ c = 0x28 ∨ isNonPrintable c then
        match consumeRemnantsOfBadURL s (s.length + 1) (p + 1) with
        | .error e => .error e
        | .ok p3 => .ok (.badURL, p3)
      else if c = 0x5C then
        if areTwoCodePointsValidEscape s p then
          match consumeEscapedCodePoint s (p + 1) with
          | .error e => .error e
          | .ok (ec, p2) => consumeURLLoop s fuel p2 (acc ++ [ec])
        else
          match consumeRemnantsOfBadURL s (s.length + 1) (p + 1) with
          | .error e => .error e
          | .ok p3 => .ok (.badURL, p3)
      else consumeURLLoop s fuel (p + 1) (acc ++ [c])
    else .error .fail

/-- ConsumeURL, CodePoints.cpp lines 1142-1217: leading whitespace skip, then
the main loop. -/
def consumeURL (s : List Nat) (p : Nat) : Except TokErr (Token × Nat) :=
  consumeURLLoop s (s.length + 1) (skipWhitespace s (s.length + 1) p) []

/-- The whitespace compression loop of ConsumeIdentLikeToken,
CodePoints.cpp lines 1235-1238: advance while the next two code points are
both whitespace. -/
def urlWsSkip (s : List Nat) : Nat → Nat → Nat
  | 0, p => p
  | fuel + 1, p =>
    if p + 1 < s.length ∧ isWhitespace (s.getD p 0) ∧ isWhitespace (s.getD (p + 1) 0) then
      urlWsSkip s fuel (p + 1)
    else p

/-- ConsumeIdentLikeToken, CodePoints.cpp lines 1220-1259.  Two quirks are
reproduced faithfully: the quoted-URL look-ahead requires a quotation mark
followed by an apostrophe (rather than either quote character), unless a
whitespace precedes the quote; and the Function branch for a non-url ident
does not consume the left parenthesis. -/
def consumeIdentLikeToken (s : List Nat) (p : Nat) : Except TokErr (Token × Nat) :=
  match consumeIdentSequence s (s.length + 1) p [] with
  | .error e => .error e
  | .ok (str, p1) =>
    if str.length = 3
        ∧ (str.getD 0 0 = 0x75 ∨ str.getD 0 0 = 0x55)
        ∧ (str.getD 1 0 = 0x72 ∨ str.getD 1 0 = 0x52)
        ∧ (str.getD 2 0 = 0x6C ∨ str.getD 2 0 = 0x4C)
        ∧ p1 < s.length ∧ s.getD p1 0 = 0x28 then
      let p3 := urlWsSkip s (s.length + 1) (p1 + 1)
      if p3 + 1 < s.length then
        if (s.getD p3 0 = 0x22 ∧ s.getD (p3 + 1) 0 = 0x27)
            ∨ (isWhitespace (s.getD p3 0)
               ∧ (s.getD (p3 + 1) 0 = 0x22 ∨ s.getD (p3 + 1) 0 = 0x27)) then
          .ok (.function str, p3)
        else consumeURL s p3
      else consumeURL s p3
    else if p1 < s.length ∧ s.getD p1 0 = 0x28 then .ok (.function str, p1)
    else .ok (.ident str, p1)

/-- The scan of ConsumeComments looking for an asterisk followed by a
solidus, CodePoints.cpp lines 672-690; starts at the opening solidus with the
previous-asterisk flag clear.  Returns the position one past the closing
solidus, or none when the end of input is reached first. -/
def commentScan (s : List Nat) : Nat → Nat → Bool → Option Nat
  | 0, _, _ => none
  | fuel + 1, p, prevAst =>
    if p < s.length then
      if s.getD p 0 = 0x2A then commentScan s fuel (p + 1) true
      else if s.getD p 0 = 0x2F ∧ prevAst then some (p + 1)
      else commentScan s fuel (p + 1) false
    else none

/-- ConsumeComments, CodePoints.cpp lines 661-693.  none is the source
returning false: the comment was unterminated at end of input.  Note that
the source consumes at most one comment per call. -/
def consumeComments (s : List Nat) (p : Nat) : Option Nat :=
  if s.length ≤ p + 1 then some p
  else if s.getD p 0 ≠ 0x2F ∨ s.getD (p + 1) 0 ≠ 0x2A then some p
  else commentScan s (s.length + 1) p false

/-- The number-sign branch of ConsumeToken, CodePoints.cpp lines 1286-1304,
with p the position of the number sign itself.  The read of the following
code point is not bounds guarded in the source. -/
def hashBranch (s : List Nat) (p : Nat) : Except TokErr (Token × Nat) :=
  match s.get? (p + 1) with
  | none => .error .oob
  | some next =>
    if isIdent next ∨ areTwoCodePointsValidEscape s (p + 1) then
      match consumeIdentSequence s (s.length + 1) (p + 1) [] with
      | .error e => .error e
      | .ok (name, p2) =>
        .ok (.hash name (doThreeCodePointsStartIndentSequence s (p + 1)), p2)
    else .ok (.delim (s.getD p 0), p + 1)

/-- The commercial-at branch of ConsumeToken, CodePoints.cpp lines 1411-1425,
with p the position of the at sign itself: the look-ahead is performed at
position - 1, which is the at sign, and the ident sequence would likewise
be consumed from the at sign. -/
def atKeywordBranch (s : List Nat) (p : Nat) : Except TokErr (Token × Nat) :=
  if doThreeCodePointsStartIndentSequence s p then
    match consumeIdentSequence s (s.length + 1) p [] with
    | .error e => .error e
    | .ok (name, p2) => .ok (.atKeyword name, p2)
  else .ok (.delim (s.getD p 0), p + 1)

/-- The dispatch of ConsumeToken on the first code point after comment
consumption, CodePoints.cpp lines 1272-1465.  p points at the dispatch code
point; the source has already advanced past it, so position in the source
is p + 1 and the reconsume steps pass p.  Faithfully reproduced quirks:
the hash branch reads the next code point without a bounds guard; the
at-keyword branch checks whether an ident sequence starts at the
commercial at itself (position - 1), and there is no case for the right
square bracket. -/
def tokenDispatch (s : List Nat) (p : Nat) : Except TokErr (Token × Nat) :=
  if isWhitespace (s.getD p 0) then
    .ok (.whitespace, skipWhitespace s (s.length + 1) (p + 1))
  else if s.getD p 0 = 0x22 then
    consumeStringToken s (s.length + 1) (p + 1) (s.getD p 0) []
  else if s.getD p 0 = 0x23 then hashBranch s p
  else if s.getD p 0 = 0x27 then
    consumeStringToken s (s.length + 1) (p + 1) (s.getD p 0) []
  else if s.getD p 0 = 0x28 then .ok (.leftParen, p + 1)
  else if s.getD p 0 = 0x29 then .ok (.rightParen, p + 1)
  else if s.getD p 0 = 0x2B then
    if doThreeCodePointsStartNumber s p then consumeNumericToken s p
    else .ok (.delim (s.getD p 0), p + 1)
  else if s.getD p 0 = 0x2C then .ok (.comma, p + 1)
  else if s.getD p 0 = 0x2D then
    if doThreeCodePointsStartNumber s p then consumeNumericToken s p
    else if p + 2 < s.length ∧ s.getD (p + 1) 0 = 0x2D ∧ s.getD (p + 2) 0 = 0x3E then
      .ok (.cdc, p + 3)
    else if doThreeCodePointsStartIndentSequence s p then consumeIdentLikeToken s p
    else .ok (.delim (s.getD p 0), p + 1)
  else if s.getD p 0 = 0x2E then
    if doThreeCodePointsStartNumber s p then consumeNumericToken s p
    else .ok (.delim (s.getD p 0), p + 1)
  else if s.getD p 0 = 0x3A then .ok (.colon, p + 1)
  else if s.getD p 0 = 0x3B then .ok (.semiColon, p + 1)
  else if s.getD p 0 = 0x3C then
    if p + 3 < s.length ∧ s.getD (p + 1) 0 = 0x21 ∧ s.getD (p + 2) 0 = 0x2D
        ∧ s.getD (p + 3) 0 = 0x2D then
      .ok (.cdo, p + 4)
    else .ok (.delim (s.getD p 0), p + 1)
  else if s.getD p 0 = 0x40 then atKeywordBranch s p
  else if s.getD p 0 = 0x5B then .ok (.leftSquare, p + 1)
  else if s.getD p 0 = 0x7B then .ok (.leftCurly, p + 1)
  else if s.getD p 0 = 0x7D then .ok (.rightCurly, p + 1)
  else if isDigit (s.getD p 0) then consumeNumericToken s p
  else if isIdentStart (s.getD p 0) then consumeIdentLikeToken s p
  else .ok (.delim (s.getD p 0), p + 1)

/-- ConsumeToken, CodePoints.cpp lines 1261-1466: consume comments, then stop
at end of input (returning no token) or dispatch.  The none component
models the path in which the source returns true without writing the
output buffer. -/
def consumeToken (s : List Nat) (p : Nat) : Except TokErr (Option Token × Nat) :=
  match consumeComments s p with
  | none => .error .fail
  | some p0 =>
    if p0 = s.length then .ok (none, p0)
    else
      match tokenDispatch s p0 with
      | .error e => .error e
      | .ok (t, p1) => .ok (some t, p1)

/-- The loop of TokenizeCodePoints, CodePoints.cpp lines 1471-1481.  When
ConsumeToken returns without writing a token (a trailing comment consumed
the rest of the input) the source pushes the uninitialized buffer, which
is error uninit here. -/
def tokenizeLoop (s : List Nat) : Nat → Nat → Except TokErr (List Token)
  | 0, _ => .error .fuelOut
  | fuel + 1, p =>
    if p < s.length then
      match consumeToken s p with
      | .error e => .error e
      | .ok (none, _) => .error .uninit
      | .ok (some t, p1) =>
        match tokenizeLoop s fuel p1 with
        | .error e => .error e
        | .ok ts => .ok (t :: ts)
    else .ok []

/-- The tokenization loop entered at position p with the gas used by
TokenizeCodePoints. -/
def tokenizeFrom (s : List Nat) (p : Nat) : Except TokErr (List Token) :=
  tokenizeLoop s (s.length + 1) p

/-- TokenizeCodePoints, CodePoints.cpp lines 1468-1484. -/
def tokenizeCodePoints (s : List Nat) : Except TokErr (List Token) :=
  tokenizeFrom s 0

deriving instance DecidableEq for Except

/-- Safety of a partially decoded sequence: whichever continuation bytes
within the current and default boundary windows complete it, the resulting
code point is not a surrogate. -/
def decSafe : Nat → Nat → Nat → Nat → Prop
  | 0, cp, _, _ => isSurrogate cp = false
  | r + 1, cp, lo, hi => ∀ c, lo ≤ c → c ≤ hi → decSafe r (cp * 64 + c % 64) 0x80 0xBF

/-- Invariant of the UTF-8 decoder state: between sequences the boundary
window is at its default and no bytes are pending; inside a sequence every
completion avoids the surrogate range. -/
def DecInv (st : DecSt) : Prop :=
  (st.needed = 0 ∧ st.seen = 0 ∧ st.lo = 0x80 ∧ st.hi = 0xBF) ∨
  (st.seen < st.needed ∧ decSafe (st.needed - st.seen) st.cp st.lo st.hi)

/-! Shared lemmas about the decoder. -/

lemma isSurrogate_eq_false_iff (c : Nat) :
    isSurrogate c = false ↔ (c < 0xD800 ∨ 0xDFFF < c) := by
  simp [isSurrogate, isLeadingSurrogate, isTrailingSurrogate]
  omega

/-- Everything the preprocessing filter emits for a non-surrogate input is
a non-surrogate distinct from form feed, carriage return and null. -/
lemma pushCodePoint_mem {v : Nat} {cr : Bool} (hv : isSurrogate v = false) :
    ∀ c ∈ (pushCodePoint v cr).1,
      isSurrogate c = false ∧ c ≠ 0x0C ∧ c ≠ 0x0D ∧ c ≠ 0 := by
  intro c hc
  unfold pushCodePoint at hc
  split_ifs at hc with h1 h2 h3 h4 h5
  · simp at hc; subst hc; decide
  · simp at hc; subst hc; decide
  · simp at hc
  · simp at hc; subst hc; decide
  · simp at hc; subst hc; decide
  · simp at hc; subst hc; exact ⟨hv, h1, h2, h5⟩

/-- Classifying one byte from the idle decoder state emits only good code
points and reestablishes the state invariant. -/
lemma utf8Step0_spec (b : Nat) (st : DecSt)
    (h0 : st.needed = 0) (hs : st.seen = 0) (hlo : st.lo = 0x80) (hhi : st.hi = 0xBF) :
    (∀ c ∈ (utf8Step0 b st).1, isSurrogate c = false ∧ c ≠ 0x0C ∧ c ≠ 0x0D ∧ c ≠ 0)
      ∧ DecInv (utf8Step0 b st).2 := by
  unfold utf8Step0
  by_cases hb1 : b ≤ 0x7F
  · rw [if_pos hb1]
    exact ⟨pushCodePoint_mem (by rw [isSurrogate_eq_false_iff]; omega),
      Or.inl (by simp [h0, hs, hlo, hhi])⟩
  rw [if_neg hb1]
  by_cases hb2 : 0xC2 ≤ b ∧ b ≤ 0xDF
  · rw [if_pos hb2]
    refine ⟨by simp, Or.inr ⟨by simp [hs], ?_⟩⟩
    simp only [hs, Nat.sub_zero]
    simp only [decSafe]
    intro c h1 h2
    rw [isSurrogate_eq_false_iff]
    omega
  rw [if_neg hb2]
  by_cases hb3 : 0xE0 ≤ b ∧ b ≤ 0xEF
  · rw [if_pos hb3]
    refine ⟨by simp, Or.inr ⟨by simp [hs], ?_⟩⟩
    simp only [hs, Nat.sub_zero, hlo, hhi]
    simp only [decSafe]
    intro c1 h11 h12 c2 h21 h22
    rw [isSurrogate_eq_false_iff]
    split_ifs at h11 h12 <;> omega
  rw [if_neg hb3]
  by_cases hb4 : 0xF0 ≤ b ∧ b ≤ 0xF4
  · rw [if_pos hb4]
    refine ⟨by simp, Or.inr ⟨by simp [hs], ?_⟩⟩
    simp only [hs, Nat.sub_zero, hlo, hhi]
    simp only [decSafe]
    intro c1 h11 h12 c2 h21 h22 c3 h31 h32
    rw [isSurrogate_eq_false_iff]
    split_ifs at h11 h12 <;> omega
  rw [if_neg hb4]
  exact ⟨pushCodePoint_mem (by decide), Or.inl (by simp [h0, hs, hlo, hhi])⟩

/-- Main decoder lemma: from any state satisfying the invariant, every
emitted code point is a non-surrogate distinct from form feed, carriage
return and null. -/
lemma utf8Decode_mem :
    ∀ (input : List Nat) (st : DecSt), DecInv st →
      ∀ c ∈ utf8Decode input st,
        isSurrogate c = false ∧ c ≠ 0x0C ∧ c ≠ 0x0D ∧ c ≠ 0 := by
  intro input
  induction input with
  | nil =>
    intro st _ c hc
    unfold utf8Decode at hc
    split at hc
    · exact pushCodePoint_mem (by decide) c hc
    · simp at hc
  | cons b rest ih =>
    intro st hst c hc
    unfold utf8Decode at hc
    by_cases h0 : st.needed = 0
    · rw [if_pos h0] at hc
      have hleft : st.needed = 0 ∧ st.seen = 0 ∧ st.lo = 0x80 ∧ st.hi = 0xBF := by
        rcases hst with h | h
        · exact h
        · omega
      by_cases hb : b = 0
      · rw [if_pos hb] at hc; simp at hc
      · rw [if_neg hb] at hc
        rcases List.mem_append.mp hc with h | h
        · exact (utf8Step0_spec b st hleft.1 hleft.2.1 hleft.2.2.1 hleft.2.2.2).1 c h
        · exact ih _ (utf8Step0_spec b st hleft.1 hleft.2.1 hleft.2.2.1 hleft.2.2.2).2 c h
    · rw [if_neg h0] at hc
      have hright : st.seen < st.needed ∧ decSafe (st.needed - st.seen) st.cp st.lo st.hi := by
        rcases hst with h | h
        · exact absurd h.1 h0
        · exact h
      obtain ⟨k, hk⟩ : ∃ k, st.needed - st.seen = k + 1 := ⟨st.needed - st.seen - 1, by omega⟩
      have hsafe := hright.2
      rw [hk] at hsafe
      simp only [decSafe] at hsafe
      by_cases hb : b = 0
      · rw [if_pos hb] at hc
        exact pushCodePoint_mem (by decide) c hc
      · rw [if_neg hb] at hc
        by_cases hwin : b < st.lo ∨ st.hi < b
        · rw [if_pos hwin] at hc
          rcases List.mem_append.mp hc with h | h
          · rcases List.mem_append.mp h with h | h
            · exact pushCodePoint_mem (by decide) c h
            · exact (utf8Step0_spec b _ rfl rfl rfl rfl).1 c h
          · exact ih _ (utf8Step0_spec b _ rfl rfl rfl rfl).2 c h
        · rw [if_neg hwin] at hc
          push_neg at hwin
          by_cases hdone : st.seen + 1 = st.needed
          · rw [if_pos hdone] at hc
            have hcp : isSurrogate (st.cp * 64 + b % 64) = false := by
              have hk0 : k = 0 := by omega
              have h2 := hsafe b hwin.1 hwin.2
              rw [hk0] at h2
              simpa [decSafe] using h2
            rcases List.mem_append.mp hc with h | h
            · exact pushCodePoint_mem hcp c h
            · exact ih _ (Or.inl (by simp [initDecSt])) c h
          · rw [if_neg hdone] at hc
            refine ih _ (Or.inr ⟨by simp; omega, ?_⟩) c hc
            have hk2 : st.needed - (st.seen + 1) = k := by omega
            simp only [hk2]
            have h2 := hsafe b hwin.1 hwin.2
            simpa using h2

/-- C2: for every byte buffer accepted by the decoder (CreateCodePointsStream
returns success), the produced code-point sequence contains no code point in
U+D800..U+DFFF, no U+000C, no U+000D, and no U+0000. -/
theorem c2_decoder_output_invariant (bytes out : List Nat)
    (h : createCodePointsStream bytes = some out) :
    ∀ c ∈ out, isSurrogate c = false ∧ c ≠ 0x0C ∧ c ≠ 0x0D ∧ c ≠ 0 := by
  intro c hc
  unfold createCodePointsStream at h
  split at h
  · exact absurd h (by simp)
  · exact absurd h (by simp)
  · cases h
    exact utf8Decode_mem _ initDecSt (Or.inl (by simp [initDecSt])) c hc
  · cases h
    exact utf8Decode_mem _ initDecSt (Or.inl (by simp [initDecSt])) c hc

/-- Witness for C2 at the concrete buffer consisting of the byte 0x41. -/
theorem c2_decoder_output_invariant_witness :
    isSurrogate 0x41 = false ∧ (0x41 : Nat) ≠ 0x0C ∧ (0x41 : Nat) ≠ 0x0D ∧ (0x41 : Nat) ≠ 0 :=
  c2_decoder_output_invariant [0x41] [0x41] (by decide) 0x41 (by decide)

/-- C4 counterexample: the buffer consisting of exactly the two bytes FE FF
(a UTF-16 BE byte order mark and nothing else) is not rejected, contrary to
the claim: BOMSniff needs at least three bytes to detect any byte order
mark, so CreateCodePointsStream succeeds and decodes the two bytes to two
replacement characters. -/
theorem c4_counterexample :
    createCodePointsStream [0xFE, 0xFF] = some [0xFFFD, 0xFFFD] := by decide

/-- C4 amended: for every byte buffer of length at least three whose first
two bytes are FE FF or FF FE, CreateCodePointsStream returns failure and
produces no code points; a buffer of exactly two bytes FE FF or FF FE is
below the three-byte minimum of the BOM sniff and decodes successfully
instead. -/
theorem c4_amended_utf16_bom_rejected (bytes : List Nat)
    (hlen : 3 ≤ bytes.length)
    (hbom : (bytes.getD 0 0 = 0xFE ∧ bytes.getD 1 0 = 0xFF)
      ∨ (bytes.getD 0 0 = 0xFF ∧ bytes.getD 1 0 = 0xFE)) :
    createCodePointsStream bytes = none := by
  unfold createCodePointsStream bomSniff
  rcases hbom with ⟨h0, h1⟩ | ⟨h0, h1⟩
  · rw [if_neg (by omega), if_neg (by rw [h0]; decide), if_pos h0, if_pos h1]
  · rw [if_neg (by omega), if_neg (by rw [h0]; decide), if_neg (by rw [h0]; decide),
      if_pos h0, if_pos h1]

/-- Witness for the amended C4 at the concrete three-byte buffer FE FF 41. -/
theorem c4_amended_utf16_bom_rejected_witness :
    createCodePointsStream [0xFE, 0xFF, 0x41] = none :=
  c4_amended_utf16_bom_rejected [0xFE, 0xFF, 0x41] (by decide) (Or.inl ⟨rfl, rfl⟩)

/-- C1: the claim that recoverable parse errors never fail the tokenizer is
contradicted by the code.  Evaluations at the failing inputs: an
unterminated string at end of input (the code points of a quotation mark
followed by the letter a) makes TokenizeCodePoints fail instead of emitting
a String token; a newline inside a string fails instead of emitting
BadString; an unterminated URL at end of input (the code points of url
followed by a left parenthesis and the letter x) fails instead of emitting
a URL token; only the malformed-URL case recovers with a BadURL token as
claimed. -/
theorem c1_recoverable_errors_fail :
    tokenizeCodePoints [0x22, 0x61] = .error .fail
      ∧ tokenizeCodePoints [0x22, 0x0A] = .error .fail
      ∧ tokenizeCodePoints [0x75, 0x72, 0x6C, 0x28, 0x78] = .error .fail
      ∧ tokenizeCodePoints [0x75, 0x72, 0x6C, 0x28, 0x28] = .ok [.badURL] := by
  decide

/-- C6: the claim that url with a directly following quoted argument emits
Function followed by a String is contradicted by the code: the look-ahead
after url( requires a quotation mark followed by an apostrophe (rather
than either quote character), so the input url("x") tokenizes to BadURL
followed by RightParen; the whitespace variant url( "x") does take the
Function path. -/
theorem c6_url_quote_lookahead_bug :
    tokenizeCodePoints [0x75, 0x72, 0x6C, 0x28, 0x22, 0x78, 0x22, 0x29]
        = .ok [.badURL, .rightParen]
      ∧ tokenizeCodePoints [0x75, 0x72, 0x6C, 0x28, 0x20, 0x22, 0x78, 0x22, 0x29]
        = .ok [.function [0x75, 0x72, 0x6C], .whitespace, .string [0x78], .rightParen] := by
  decide

/-- C8: of the nine dedicated bracket and punctuation code points, eight
produce their dedicated tokens, but the right square bracket has no case
in ConsumeToken and falls through to a Delim token, contradicting the
claim. -/
theorem c8_bracket_punctuation_tokens :
    tokenizeCodePoints [0x28] = .ok [.leftParen]
      ∧ tokenizeCodePoints [0x29] = .ok [.rightParen]
      ∧ tokenizeCodePoints [0x5B] = .ok [.leftSquare]
      ∧ tokenizeCodePoints [0x5D] = .ok [.delim 0x5D]
      ∧ tokenizeCodePoints [0x7B] = .ok [.leftCurly]
      ∧ tokenizeCodePoints [0x7D] = .ok [.rightCurly]
      ∧ tokenizeCodePoints [0x2C] = .ok [.comma]
      ∧ tokenizeCodePoints [0x3A] = .ok [.colon]
      ∧ tokenizeCodePoints [0x3B] = .ok [.semiColon] := by
  decide

/-- C10: the claim that ConsumeNumericToken and ConsumeEscapedCodePoint
only read in bounds is contradicted by the code: consuming the number 42
at end of input reaches the unguarded percent-sign check one past the end
of the buffer, and consuming an escaped code point whose hex digit is the
last code point reaches the unguarded hex-digit look-ahead one past the
end. -/
theorem c10_out_of_bounds_reads :
    consumeNumericToken [0x34, 0x32] 0 = .error .oob
      ∧ consumeEscapedCodePoint [0x34] 0 = .error .oob := by
  decide

/-- C5: the claim that a non-integer numeric value is stored as
s * (i + f * 10^(-d)) * 10^(t*e) is contradicted by the code, which
multiplies the fractional part by the positive power pow(10, d): consuming
the number written 1.5 stores the value 51 (= 1 + 5 * 10) rather than
3/2, with the integer flag false as expected.  Additionally, for the
representation 1e5 the conversion routine keeps its own integer flag true
(only a full stop or a negative exponent sign clears it) and stores the
64-bit integer 100000 while the emitted flag is false, so the stored value
is not a floating-point value as the claim requires. -/
theorem c5_fraction_multiplied_bug :
    consumeNumber [0x31, 0x2E, 0x35] 0 = .ok (.real 51 1, false, 3)
      ∧ NumVal.qval (.real 51 1) ≠ 3 / 2
      ∧ consumeNumber [0x31, 0x65, 0x35] 0 = .ok (.int 100000, false, 3) := by
  refine ⟨by decide, ?_, by decide⟩
  norm_num [NumVal.qval]

/-- If no asterisk-solidus pair occurs at or after position p + 1, the
comment scan started at the opening solidus at p never finds a closer. -/
lemma commentScan_eq_none (s : List Nat) (p : Nat)
    (hp : s.getD p 0 = 0x2F)
    (hno : ∀ q, p + 1 ≤ q → q + 1 < s.length →
      ¬(s.getD q 0 = 0x2A ∧ s.getD (q + 1) 0 = 0x2F)) :
    ∀ fuel q prevAst, p ≤ q →
      (prevAst = true → 1 ≤ q ∧ p ≤ q - 1 ∧ s.getD (q - 1) 0 = 0x2A) →
      commentScan s fuel q prevAst = none := by
  intro fuel
  induction fuel with
  | zero => intro q prevAst _ _; rfl
  | succ n ih =>
    intro q prevAst hpq hprev
    unfold commentScan
    by_cases hql : q < s.length
    · rw [if_pos hql]
      by_cases hast : s.getD q 0 = 0x2A
      · rw [if_pos hast]
        exact ih (q + 1) true (by omega) (fun _ => ⟨by omega, by omega, by simpa using hast⟩)
      · rw [if_neg hast]
        by_cases hclose : s.getD q 0 = 0x2F ∧ prevAst = true
        · exfalso
          obtain ⟨h1, h2, h3⟩ := hprev hclose.2
          have hne : q - 1 ≠ p := by
            intro he
            rw [he, hp] at h3
            exact absurd h3 (by decide)
          have := hno (q - 1) (by omega) (by omega)
          rw [Nat.sub_add_cancel h1] at this
          exact this ⟨h3, hclose.1⟩
        · rw [if_neg hclose]
          exact ih (q + 1) false (by omega) (by simp)
    · rw [if_neg hql]

/-- C3 counterexample: the input url("/* ends with the two code points
solidus asterisk, contains no asterisk-solidus pair anywhere, and yet
TokenizeCodePoints succeeds (with a single BadURL token): the trailing
opener is swallowed by the bad-url remnants, so the claim as stated is
false. -/
theorem c3_counterexample :
    tokenizeCodePoints [0x75, 0x72, 0x6C, 0x28, 0x22, 0x2F, 0x2A] = .ok [.badURL]
      ∧ [0x75, 0x72, 0x6C, 0x28, 0x22, 0x2F, 0x2A].getD 5 0 = 0x2F
      ∧ [0x75, 0x72, 0x6C, 0x28, 0x22, 0x2F, 0x2A].getD 6 0 = 0x2A
      ∧ (∀ q < 7,
          ¬([0x75, 0x72, 0x6C, 0x28, 0x22, 0x2F, 0x2A].getD q 0 = 0x2A
            ∧ [0x75, 0x72, 0x6C, 0x28, 0x22, 0x2F, 0x2A].getD (q + 1) 0 = 0x2F)) := by
  refine ⟨by decide, by decide, by decide, by decide⟩

/-- C3 amended: whenever the tokenizer begins consuming a token at a
position where the next two code points are solidus asterisk and no
asterisk-solidus pair follows before end of input, tokenization from that
position returns failure (and hence an input that is reached as a comment
opener and left unterminated fails); an input merely ending in the two
code points solidus asterisk can still tokenize successfully when those
code points are absorbed by an enclosing construct such as a bad URL. -/
theorem c3_amended_unterminated_comment_fails (s : List Nat) (p : Nat)
    (hlt : p + 1 < s.length)
    (h1 : s.getD p 0 = 0x2F)
    (h2 : s.getD (p + 1) 0 = 0x2A)
    (hno : ∀ q, p + 1 ≤ q → q + 1 < s.length →
      ¬(s.getD q 0 = 0x2A ∧ s.getD (q + 1) 0 = 0x2F)) :
    tokenizeFrom s p = .error .fail := by
  have hcc : consumeComments s p = none := by
    unfold consumeComments
    rw [if_neg (by omega), if_neg (by rw [h1, h2]; decide)]
    exact commentScan_eq_none s p h1 hno (s.length + 1) p false le_rfl (by simp)
  have hct : consumeToken s p = .error .fail := by
    unfold consumeToken
    rw [hcc]
  unfold tokenizeFrom
  obtain ⟨m, hm⟩ : ∃ m, s.length + 1 = m + 1 := ⟨s.length, rfl⟩
  rw [hm]
  unfold tokenizeLoop
  rw [if_pos (by omega), hct]

/-- Witness for the amended C3 at the concrete two-code-point input
consisting of solidus asterisk. -/
theorem c3_amended_unterminated_comment_fails_witness :
    tokenizeFrom [0x2F, 0x2A] 0 = .error .fail :=
  c3_amended_unterminated_comment_fails [0x2F, 0x2A] 0 (by decide) (by decide) (by decide)
    (by intro q hq hlt h; simp at hlt; omega)

/-- C7: the claim that an at sign followed by three code points that would
start an ident sequence yields an AtKeyword token is contradicted by the
code: the at-keyword branch of ConsumeToken performs its look-ahead at the
position of the at sign itself (position - 1), and the at sign is neither a
hyphen, nor a backslash, nor an ident-start code point, so that look-ahead
is false for every input and every position and the branch is dead; in
particular the input consisting of the at sign and the letters of media
tokenizes to a Delim token followed by an Ident token rather than to an
AtKeyword token. -/
theorem c7_at_keyword_branch_dead :
    (∀ (s : List Nat) (p : Nat), s.getD p 0 = 0x40 →
      doThreeCodePointsStartIndentSequence s p = false)
      ∧ tokenizeCodePoints [0x40, 0x6D, 0x65, 0x64, 0x69, 0x61]
          = .ok [.delim 0x40, .ident [0x6D, 0x65, 0x64, 0x69, 0x61]] := by
  constructor
  · intro s p h
    unfold doThreeCodePointsStartIndentSequence
    by_cases hl : s.length ≤ p + 2
    · rw [if_pos hl]
    · rw [if_neg hl, if_neg (by rw [h]; decide), if_neg (by rw [h]; decide), h]
      decide
  · decide

/-- Witness for the universally quantified part of C7 at the concrete
input of an at sign followed by the letter m, at position zero. -/
theorem c7_at_keyword_branch_dead_witness :
    doThreeCodePointsStartIndentSequence [0x40, 0x6D, 0x65] 0 = false :=
  c7_at_keyword_branch_dead.1 [0x40, 0x6D, 0x65] 0 (by decide)

/-! Shape lemmas: the Hash token is built only in the number-sign branch
of the dispatch; no sub-consumer ever returns one. -/

lemma consumeStringToken_ne_hash (s : List Nat) :
    ∀ fuel p ending acc v b q,
      consumeStringToken s fuel p ending acc ≠ .ok (.hash v b, q) := by
  intro fuel
  induction fuel with
  | zero => intro p ending acc v b q h; simp [consumeStringToken] at h
  | succ n ih =>
    intro p ending acc v b q h
    simp only [consumeStringToken] at h
    repeat' split at h
    all_goals
      first
      | exact ih _ _ _ _ _ _ h
      | simp at h

lemma consumeURLLoop_ne_hash (s : List Nat) :
    ∀ fuel p acc v b q,
      consumeURLLoop s fuel p acc ≠ .ok (.hash v b, q) := by
  intro fuel
  induction fuel with
  | zero => intro p acc v b q h; simp [consumeURLLoop] at h
  | succ n ih =>
    intro p acc v b q h
    simp only [consumeURLLoop] at h
    repeat' split at h
    all_goals
      first
      | exact ih _ _ _ _ _ h
      | simp at h

lemma consumeURL_ne_hash (s : List Nat) (p : Nat) (v : List Nat) (b : Bool) (q : Nat) :
    consumeURL s p ≠ .ok (.hash v b, q) :=
  consumeURLLoop_ne_hash s _ _ _ _ _ _

lemma consumeNumericToken_ne_hash (s : List Nat) (p : Nat) (v : List Nat) (b : Bool) (q : Nat) :
    consumeNumericToken s p ≠ .ok (.hash v b, q) := by
  intro h
  simp only [consumeNumericToken] at h
  repeat' split at h
  all_goals simp at h

lemma consumeIdentLikeToken_ne_hash (s : List Nat) (p : Nat) (v : List Nat) (b : Bool) (q : Nat) :
    consumeIdentLikeToken s p ≠ .ok (.hash v b, q) := by
  intro h
  simp only [consumeIdentLikeToken] at h
  repeat' split at h
  all_goals
    first
    | exact absurd h (consumeURL_ne_hash s _ _ _ _)
    | simp at h

/-- Every Hash token produced by the number-sign branch records the
look-ahead taken at the position one past the number sign. -/
lemma hashBranch_hash_id (s : List Nat) (p : Nat) (v : List Nat) (q : Nat)
    (h : hashBranch s p = .ok (.hash v true, q)) :
    doThreeCodePointsStartIndentSequence s (p + 1) = true := by
  unfold hashBranch at h
  repeat' split at h
  all_goals simp at h
  exact h.1.2

lemma atKeywordBranch_ne_hash (s : List Nat) (p : Nat) (v : List Nat) (b : Bool) (q : Nat) :
    atKeywordBranch s p ≠ .ok (.hash v b, q) := by
  intro h
  unfold atKeywordBranch at h
  repeat' split at h
  all_goals simp at h

/-- Every Hash token produced by the dispatch records the look-ahead taken
at the position one past the number sign. -/
lemma tokenDispatch_hash_id (s : List Nat) (p : Nat) (v : List Nat) (q : Nat)
    (h : tokenDispatch s p = .ok (.hash v true, q)) :
    doThreeCodePointsStartIndentSequence s (p + 1) = true := by
  unfold tokenDispatch at h
  by_cases h1 : isWhitespace (s.getD p 0) = true
  · rw [if_pos h1] at h; exact absurd h (by simp)
  rw [if_neg h1] at h
  by_cases h2 : s.getD p 0 = 0x22
  · rw [if_pos h2] at h; exact absurd h (consumeStringToken_ne_hash s _ _ _ _ _ _ _)
  rw [if_neg h2] at h
  by_cases h3 : s.getD p 0 = 0x23
  · rw [if_pos h3] at h
    exact hashBranch_hash_id s p v q h
  rw [if_neg h3] at h
  by_cases h5 : s.getD p 0 = 0x27
  · rw [if_pos h5] at h; exact absurd h (consumeStringToken_ne_hash s _ _ _ _ _ _ _)
  rw [if_neg h5] at h
  by_cases h6 : s.getD p 0 = 0x28
  · rw [if_pos h6] at h; exact absurd h (by simp)
  rw [if_neg h6] at h
  by_cases h7 : s.getD p 0 = 0x29
  · rw [if_pos h7] at h; exact absurd h (by simp)
  rw [if_neg h7] at h
  by_cases h8 : s.getD p 0 = 0x2B
  · rw [if_pos h8] at h
    by_cases h8a : doThreeCodePointsStartNumber s p = true
    · rw [if_pos h8a] at h; exact absurd h (consumeNumericToken_ne_hash s _ _ _ _)
    · rw [if_neg h8a] at h; exact absurd h (by simp)
  rw [if_neg h8] at h
  by_cases h9 : s.getD p 0 = 0x2C
  · rw [if_pos h9] at h; exact absurd h (by simp)
  rw [if_neg h9] at h
  by_cases h10 : s.getD p 0 = 0x2D
  · rw [if_pos h10] at h
    by_cases h10a : doThreeCodePointsStartNumber s p = true
    · rw [if_pos h10a] at h; exact absurd h (consumeNumericToken_ne_hash s _ _ _ _)
    rw [if_neg h10a] at h
    by_cases h10b : p + 2 < s.length ∧ s.getD (p + 1) 0 = 0x2D ∧ s.getD (p + 2) 0 = 0x3E
    · rw [if_pos h10b] at h; exact absurd h (by simp)
    rw [if_neg h10b] at h
    by_cases h10c : doThreeCodePointsStartIndentSequence s p = true
    · rw [if_pos h10c] at h; exact absurd h (consumeIdentLikeToken_ne_hash s _ _ _ _)
    · rw [if_neg h10c] at h; exact absurd h (by simp)
  rw [if_neg h10] at h
  by_cases h11 : s.getD p 0 = 0x2E
  · rw [if_pos h11] at h
    by_cases h11a : doThreeCodePointsStartNumber s p = true
    · rw [if_pos h11a] at h; exact absurd h (consumeNumericToken_ne_hash s _ _ _ _)
    · rw [if_neg h11a] at h; exact absurd h (by simp)
  rw [if_neg h11] at h
  by_cases h12 : s.getD p 0 = 0x3A
  · rw [if_pos h12] at h; exact absurd h (by simp)
  rw [if_neg h12] at h
  by_cases h13 : s.getD p 0 = 0x3B
  · rw [if_pos h13] at h; exact absurd h (by simp)
  rw [if_neg h13] at h
  by_cases h14 : s.getD p 0 = 0x3C
  · rw [if_pos h14] at h
    by_cases h14a : p + 3 < s.length ∧ s.getD (p + 1) 0 = 0x21 ∧ s.getD (p + 2) 0 = 0x2D
        ∧ s.getD (p + 3) 0 = 0x2D
    · rw [if_pos h14a] at h; exact absurd h (by simp)
    · rw [if_neg h14a] at h; exact absurd h (by simp)
  rw [if_neg h14] at h
  by_cases h15 : s.getD p 0 = 0x40
  · rw [if_pos h15] at h
    exact absurd h (atKeywordBranch_ne_hash s p v true q)
  rw [if_neg h15] at h
  by_cases h16 : s.getD p 0 = 0x5B
  · rw [if_pos h16] at h; exact absurd h (by simp)
  rw [if_neg h16] at h
  by_cases h17 : s.getD p 0 = 0x7B
  · rw [if_pos h17] at h; exact absurd h (by simp)
  rw [if_neg h17] at h
  by_cases h18 : s.getD p 0 = 0x7D
  · rw [if_pos h18] at h; exact absurd h (by simp)
  rw [if_neg h18] at h
  by_cases h19 : isDigit (s.getD p 0) = true
  · rw [if_pos h19] at h; exact absurd h (consumeNumericToken_ne_hash s _ _ _ _)
  rw [if_neg h19] at h
  by_cases h20 : isIdentStart (s.getD p 0) = true
  · rw [if_pos h20] at h; exact absurd h (consumeIdentLikeToken_ne_hash s _ _ _ _)
  · rw [if_neg h20] at h; exact absurd h (by simp)

/-- C9 counterexample: the input consisting of a number sign followed by
the code points of -foo yields a Hash token with the id flag true whose
payload begins with the hyphen-minus code point, which is not an
ident-start code point, and whose first two code points do not form a
valid escape; so the claimed payload invariant is false on the very input
the claim requires to produce Hash with id true. -/
theorem c9_counterexample :
    tokenizeCodePoints [0x23, 0x2D, 0x66, 0x6F, 0x6F]
        = .ok [.hash [0x2D, 0x66, 0x6F, 0x6F] true]
      ∧ isIdentStart 0x2D = false
      ∧ areTwoCodePointsValidEscape [0x2D, 0x66, 0x6F, 0x6F] 0 = false := by
  decide

/-- C9 amended: every Hash token the dispatch emits with the id flag true
was emitted at a position where the three code points following the number
sign would start an ident sequence (the flag records that input
look-ahead, not a property of the first code points of the payload); and
the input number sign followed by -foo yields Hash with payload -foo and
id flag true as the claim requires. -/
theorem c9_amended_hash_id_flag :
    (∀ (s : List Nat) (p : Nat) (v : List Nat) (q : Nat),
        tokenDispatch s p = .ok (.hash v true, q) →
        doThreeCodePointsStartIndentSequence s (p + 1) = true)
      ∧ tokenizeCodePoints [0x23, 0x2D, 0x66, 0x6F, 0x6F]
          = .ok [.hash [0x2D, 0x66, 0x6F, 0x6F] true] :=
  ⟨tokenDispatch_hash_id, by decide⟩

/-- Witness for the universally quantified part of the amended C9 at the
concrete input number sign followed by -foo, at position zero. -/
theorem c9_amended_hash_id_flag_witness :
    doThreeCodePointsStartIndentSequence [0x23, 0x2D, 0x66, 0x6F, 0x6F] 1 = true :=
  c9_amended_hash_id_flag.1 [0x23, 0x2D, 0x66, 0x6F, 0x6F] 0 [0x2D, 0x66, 0x6F, 0x6F] 5
    (by decide)

end CSSParser
